import Mathlib

/-!
Verification of the complaint-tracking service in `src/main.go`.

The program keeps two in-memory Go maps — `users` (keyed by secret code) and
`complaints` (keyed by complaint ID) — and serves seven request handlers,
all serialized by one mutex.  We embed the store as association lists with
Go-map semantics (`insertEntry` replaces the entry at an existing key and
appends a fresh one; `findEntry` looks a key up), and each handler as a pure
function from its decoded request body and the store to a response together
with the new store.  JSON decoding is the serialization collaborator of the
spec: a handler receives `Except String payload`, where `.error e` stands
for a decode failure with message `e` and `.ok v` for the decoded value.
-/

namespace ComplaintService

/-- The `Complaint` struct of `src/main.go`: ID, title, summary, severity,
resolved flag, and the owning user's secret code. -/
structure Complaint where
  id : String
  title : String
  summary : String
  severity : Int
  resolved : Bool
  secretCode : String
deriving DecidableEq, Repr

/-- The `User` struct of `src/main.go`: ID, secret code, name, email, and the
embedded (denormalized) list of this user's complaints. -/
structure User where
  id : String
  secretCode : String
  name : String
  email : String
  complaints : List Complaint
deriving DecidableEq, Repr

/-- A Go map lookup `v, ok := m[k]` over an association-list embedding. -/
def findEntry {α : Type} : List (String × α) → String → Option α
  | [], _ => none
  | (k₁, v₁) :: t, k => if k₁ = k then some v₁ else findEntry t k

/-- A Go map assignment `m[k] = v`: replace the entry at an existing key,
append a fresh key at the end. -/
def insertEntry {α : Type} : List (String × α) → String → α → List (String × α)
  | [], k, v => [(k, v)]
  | (k₁, v₁) :: t, k, v =>
      if k₁ = k then (k, v) :: t else (k₁, v₁) :: insertEntry t k v

/-- The shared mutable state of `src/main.go`: the `users` map keyed by
secret code and the `complaints` map keyed by complaint ID. -/
structure Store where
  users : List (String × User)
  complaints : List (String × Complaint)
deriving DecidableEq, Repr

/-- The initial state: both maps empty. -/
def emptyStore : Store := { users := [], complaints := [] }

/-- `generateUniqueID` in `src/main.go`: `fmt.Sprintf("%d", len(complaints)+1)`,
the count of complaints currently in the canonical table plus one. -/
def generateUniqueID (s : Store) : String :=
  toString (s.complaints.length + 1)

/-- The body of an HTTP response, as written by the handlers: nothing
(201/204), a JSON-encoded user, complaint or complaint list, or the
`{"error": msg}` object produced by `writeError`. -/
inductive Body where
  | empty : Body
  | userBody : User → Body
  | complaintBody : Complaint → Body
  | listBody : List Complaint → Body
  | errorBody : String → Body
deriving DecidableEq, Repr

/-- An HTTP response: status code plus body. -/
structure Response where
  status : Nat
  body : Body
deriving DecidableEq, Repr

/-- `writeError` in `src/main.go`: the given status code with body
`{"error": errMsg}`. -/
def writeError (errMsg : String) (statusCode : Nat) : Response :=
  { status := statusCode, body := .errorBody errMsg }

/-- `loginHandler`: decode `{secretCode}`, look the user up, and return the
full stored record (404 if absent, 400 on a decode error). -/
def loginHandler (body : Except String String) (s : Store) : Response × Store :=
  match body with
  | .error e => (writeError e 400, s)
  | .ok secretCode =>
      match findEntry s.users secretCode with
      | none => (writeError "User not found" 404, s)
      | some user => ({ status := 200, body := .userBody user }, s)

/-- `registerHandler`: decode a full `User`, reject a duplicate secret code
with 400, otherwise assign `id = generateUniqueID()`, reset the complaint
list to empty, store the user under its secret code and echo it back. -/
def registerHandler (body : Except String User) (s : Store) : Response × Store :=
  match body with
  | .error e => (writeError e 400, s)
  | .ok newUser =>
      match findEntry s.users newUser.secretCode with
      | some _ => (writeError "Secret code already in use" 400, s)
      | none =>
          let stored : User :=
            { newUser with id := generateUniqueID s, complaints := [] }
          ({ status := 200, body := .userBody stored },
           { s with users := insertEntry s.users newUser.secretCode stored })

/-- `submitComplaintHandler`: decode a full `Complaint`, 404 if its secret
code matches no user, otherwise assign `id = generateUniqueID()` (computed
before insertion), store the complaint in the canonical table, append a copy
to the owning user's embedded list, and answer 201 with no body. -/
def submitComplaintHandler (body : Except String Complaint) (s : Store) :
    Response × Store :=
  match body with
  | .error e => (writeError e 400, s)
  | .ok newComplaint =>
      match findEntry s.users newComplaint.secretCode with
      | none => (writeError "User not found" 404, s)
      | some user =>
          let c : Complaint := { newComplaint with id := generateUniqueID s }
          let user₁ : User := { user with complaints := user.complaints ++ [c] }
          ({ status := 201, body := .empty },
           { s with
               complaints := insertEntry s.complaints c.id c,
               users := insertEntry s.users newComplaint.secretCode user₁ })

/-- `getAllComplaintsForUserHandler`: decode `{secretCode}`, 404 if no such
user, otherwise return the user's embedded complaint list. -/
def getAllComplaintsForUserHandler (body : Except String String) (s : Store) :
    Response × Store :=
  match body with
  | .error e => (writeError e 400, s)
  | .ok secretCode =>
      match findEntry s.users secretCode with
      | none => (writeError "User not found" 404, s)
      | some userDetails =>
          ({ status := 200, body := .listBody userDetails.complaints }, s)

/-- `getAllComplaintsForAdminHandler`: decode `{secretCode}`, 401 unless it
equals `"admin"`, otherwise append every user's embedded complaint list in
map-iteration order and return the accumulated list. -/
def getAllComplaintsForAdminHandler (body : Except String String) (s : Store) :
    Response × Store :=
  match body with
  | .error e => (writeError e 400, s)
  | .ok secretCode =>
      if secretCode ≠ "admin" then (writeError "Unauthorized" 401, s)
      else
        let allComplaints :=
          s.users.foldl (fun acc p => acc ++ p.2.complaints) []
        ({ status := 200, body := .listBody allComplaints }, s)

/-- `viewComplaintHandler`: decode `{id}`, 404 `"Complaint not found"` if the
canonical table has no such ID, 404 `"User not found"` if the complaint's
stored secret code keys no user, otherwise return the canonical record. -/
def viewComplaintHandler (body : Except String String) (s : Store) :
    Response × Store :=
  match body with
  | .error e => (writeError e 400, s)
  | .ok id =>
      match findEntry s.complaints id with
      | none => (writeError "Complaint not found" 404, s)
      | some complaintDetails =>
          match findEntry s.users complaintDetails.secretCode with
          | none => (writeError "User not found" 404, s)
          | some _ =>
              ({ status := 200, body := .complaintBody complaintDetails }, s)

/-- `resolveComplaintHandler`: decode `{id}` and then `{secretCode}` from the
same body in sequence (each decode failure answers 400), 401 unless the
secret code equals `"admin"`, 404 if the complaint is absent, otherwise set
`resolved = true` on the canonical entry and answer 204 with no body. -/
def resolveComplaintHandler (body₁ : Except String String)
    (body₂ : Except String String) (s : Store) : Response × Store :=
  match body₁ with
  | .error e => (writeError e 400, s)
  | .ok id =>
      match body₂ with
      | .error e => (writeError e 400, s)
      | .ok secretCode =>
          if secretCode ≠ "admin" then (writeError "Unauthorized" 401, s)
          else
            match findEntry s.complaints id with
            | none => (writeError "Complaint not found" 404, s)
            | some complaintDetails =>
                ({ status := 204, body := .empty },
                 { s with
                     complaints :=
                       insertEntry s.complaints id
                         { complaintDetails with resolved := true } })

/-- The stores reachable from the empty store through the seven request
operations, with arbitrary decoded (or failed) bodies. -/
inductive Reachable : Store → Prop where
  | empty : Reachable emptyStore
  | login (s : Store) (b : Except String String) :
      Reachable s → Reachable (loginHandler b s).2
  | register (s : Store) (b : Except String User) :
      Reachable s → Reachable (registerHandler b s).2
  | submitComplaint (s : Store) (b : Except String Complaint) :
      Reachable s → Reachable (submitComplaintHandler b s).2
  | getAllForUser (s : Store) (b : Except String String) :
      Reachable s → Reachable (getAllComplaintsForUserHandler b s).2
  | getAllForAdmin (s : Store) (b : Except String String) :
      Reachable s → Reachable (getAllComplaintsForAdminHandler b s).2
  | viewComplaint (s : Store) (b : Except String String) :
      Reachable s → Reachable (viewComplaintHandler b s).2
  | resolveComplaint (s : Store) (b₁ b₂ : Except String String) :
      Reachable s → Reachable (resolveComplaintHandler b₁ b₂ s).2

/-- Referential integrity: every complaint in the canonical table stores a
secret code that keys an existing user. -/
def UsersOK (s : Store) : Prop :=
  ∀ id c, findEntry s.complaints id = some c →
    (findEntry s.users c.secretCode).isSome = true

/-- A sample registration payload (decoded `User`). -/
def demoUser : User :=
  { id := "", secretCode := "c1", name := "Alice", email := "alice@example.com",
    complaints := [] }

/-- A sample complaint payload (decoded `Complaint`) owned by `demoUser`. -/
def demoComplaint : Complaint :=
  { id := "", title := "Broken lift", summary := "Lift stuck on floor 3",
    severity := 5, resolved := false, secretCode := "c1" }

/-- The store after registering `demoUser` into the empty store. -/
def store₁ : Store := (registerHandler (.ok demoUser) emptyStore).2

/-- The store after additionally submitting `demoComplaint`. -/
def store₂ : Store := (submitComplaintHandler (.ok demoComplaint) store₁).2

/-! ### Map lemmas -/

theorem findEntry_insertEntry {α : Type} (t : List (String × α)) (k q : String)
    (v : α) :
    findEntry (insertEntry t k v) q = if q = k then some v else findEntry t q := by
  induction t with
  | nil =>
      simp only [insertEntry, findEntry]
      by_cases h : k = q
      · simp [h]
      · have h₁ : ¬q = k := fun hqk => h hqk.symm
        simp [h, h₁]
  | cons p t ih =>
      obtain ⟨a, b⟩ := p
      simp only [insertEntry]
      by_cases hak : a = k
      · subst hak
        simp only [if_pos rfl, findEntry]
        by_cases haq : a = q
        · simp [haq]
        · have h₁ : ¬q = a := fun hqa => haq hqa.symm
          simp [haq, h₁]
      · simp only [if_neg hak, findEntry, ih]
        by_cases haq : a = q
        · subst haq
          have h₁ : ¬a = k := hak
          simp [h₁]
        · simp [haq]

theorem mem_of_findEntry {α : Type} (t : List (String × α)) (k : String) (v : α)
    (h : findEntry t k = some v) : (k, v) ∈ t := by
  induction t with
  | nil => simp [findEntry] at h
  | cons p t ih =>
      obtain ⟨a, b⟩ := p
      simp only [findEntry] at h
      by_cases hak : a = k
      · subst hak
        rw [if_pos rfl] at h
        injection h with h
        subst h
        exact List.mem_cons_self _ _
      · exact List.mem_cons_of_mem _ (ih (by simpa [hak] using h))

theorem foldl_users_flatten (l : List (String × User)) :
    ∀ acc : List Complaint,
      l.foldl (fun acc p => acc ++ p.2.complaints) acc =
        acc ++ (l.map fun p => p.2.complaints).flatten := by
  induction l with
  | nil => intro acc; simp
  | cons p t ih =>
      intro acc
      simp [List.foldl, ih (acc ++ p.2.complaints)]

/-! ### Handler characterizations on their success paths -/

theorem registerHandler_success (s : Store) (u : User)
    (h : findEntry s.users u.secretCode = none) :
    registerHandler (.ok u) s =
      ({ status := 200,
         body := .userBody { u with id := generateUniqueID s, complaints := [] } },
       { s with users := insertEntry s.users u.secretCode ({ u with id := generateUniqueID s, complaints := [] }) }) := by
  simp [registerHandler, h]

theorem submitComplaintHandler_success (s : Store) (c : Complaint) (u : User)
    (h : findEntry s.users c.secretCode = some u) :
    submitComplaintHandler (.ok c) s =
      ({ status := 201, body := .empty },
       { users := insertEntry s.users c.secretCode ({ u with complaints := u.complaints ++ [{ c with id := generateUniqueID s }] }),
         complaints := insertEntry s.complaints (generateUniqueID s) ({ c with id := generateUniqueID s }) }) := by
  simp [submitComplaintHandler, h]

theorem resolveComplaintHandler_success (s : Store) (cid : String) (c : Complaint)
    (h : findEntry s.complaints cid = some c) :
    resolveComplaintHandler (.ok cid) (.ok "admin") s =
      ({ status := 204, body := .empty },
       { s with complaints := insertEntry s.complaints cid ({ c with resolved := true }) }) := by
  simp [resolveComplaintHandler, h]

/-! ### Non-mutating handlers leave the store unchanged -/

theorem loginHandler_state (b : Except String String) (s : Store) :
    (loginHandler b s).2 = s := by
  cases b with
  | error e => rfl
  | ok code => cases hf : findEntry s.users code <;> simp [loginHandler, hf]

theorem getAllForUserHandler_state (b : Except String String) (s : Store) :
    (getAllComplaintsForUserHandler b s).2 = s := by
  cases b with
  | error e => rfl
  | ok code =>
      cases hf : findEntry s.users code <;>
        simp [getAllComplaintsForUserHandler, hf]

theorem getAllForAdminHandler_state (b : Except String String) (s : Store) :
    (getAllComplaintsForAdminHandler b s).2 = s := by
  cases b with
  | error e => rfl
  | ok code =>
      by_cases h : code = "admin" <;> simp [getAllComplaintsForAdminHandler, h]

theorem viewComplaintHandler_state (b : Except String String) (s : Store) :
    (viewComplaintHandler b s).2 = s := by
  cases b with
  | error e => rfl
  | ok id =>
      cases hf : findEntry s.complaints id with
      | none => simp [viewComplaintHandler, hf]
      | some c =>
          cases hu : findEntry s.users c.secretCode <;>
            simp [viewComplaintHandler, hf, hu]

/-! ### Referential-integrity invariant preservation -/

theorem usersOK_empty : UsersOK emptyStore := by
  intro id c h
  simp [emptyStore, findEntry] at h

theorem usersOK_register (s : Store) (b : Except String User) (h : UsersOK s) :
    UsersOK (registerHandler b s).2 := by
  cases b with
  | error e => exact h
  | ok u =>
      cases hf : findEntry s.users u.secretCode with
      | some w => simpa [registerHandler, hf] using h
      | none =>
          intro id c hc
          simp only [registerHandler, hf] at hc ⊢
          have hold := h id c hc
          rw [findEntry_insertEntry]
          split
          · rfl
          · exact hold

theorem usersOK_submit (s : Store) (b : Except String Complaint) (h : UsersOK s) :
    UsersOK (submitComplaintHandler b s).2 := by
  cases b with
  | error e => exact h
  | ok nc =>
      cases hf : findEntry s.users nc.secretCode with
      | none => simpa [submitComplaintHandler, hf] using h
      | some user =>
          intro id c hc
          simp only [submitComplaintHandler, hf] at hc ⊢
          rw [findEntry_insertEntry] at hc
          rw [findEntry_insertEntry]
          split_ifs at hc with hid
          · cases hc
            split
            · rfl
            · rename_i hcode
              exact absurd rfl hcode
          · have hold := h id c hc
            split
            · rfl
            · exact hold

theorem usersOK_resolve (s : Store) (b₁ b₂ : Except String String)
    (h : UsersOK s) : UsersOK (resolveComplaintHandler b₁ b₂ s).2 := by
  cases b₁ with
  | error e => exact h
  | ok id =>
      cases b₂ with
      | error e => exact h
      | ok code =>
          by_cases hadm : code = "admin"
          · subst hadm
            cases hf : findEntry s.complaints id with
            | none => simpa [resolveComplaintHandler, hf] using h
            | some cd =>
                intro id₁ c₁ hc₁
                simp only [resolveComplaintHandler, hf, if_neg
                  (by simp : ¬("admin" : String) ≠ "admin")] at hc₁ ⊢
                rw [findEntry_insertEntry] at hc₁
                split_ifs at hc₁ with hid
                · cases hc₁
                  exact h id cd hf
                · exact h id₁ c₁ hc₁
          · simpa [resolveComplaintHandler, hadm] using h

theorem reachable_usersOK (s : Store) (h : Reachable s) : UsersOK s := by
  induction h with
  | empty => exact usersOK_empty
  | login s b _ ih => rw [loginHandler_state]; exact ih
  | register s b _ ih => exact usersOK_register s b ih
  | submitComplaint s b _ ih => exact usersOK_submit s b ih
  | getAllForUser s b _ ih => rw [getAllForUserHandler_state]; exact ih
  | getAllForAdmin s b _ ih => rw [getAllForAdminHandler_state]; exact ih
  | viewComplaint s b _ ih => rw [viewComplaintHandler_state]; exact ih
  | resolveComplaint s b₁ b₂ _ ih => exact usersOK_resolve s b₁ b₂ ih

/-! ### Claims -/

/-- C1: user and complaint IDs both come from the single shared counter
`len(complaints) + 1` (stringified, computed before insertion); from the
empty store, registering the first user assigns user ID `"1"`, submitting the
first complaint assigns complaint ID `"1"`, the two records share identity
`"1"` in their respective tables, and `viewComplaint "1"` returns the
complaint, not the user. -/
theorem c1_shared_id_counter :
    (∀ (s : Store) (u : User), findEntry s.users u.secretCode = none →
        (registerHandler (.ok u) s).1.body =
          .userBody { u with id := toString (s.complaints.length + 1),
                             complaints := [] }) ∧
    (∀ (s : Store) (c : Complaint) (w : User),
        findEntry s.users c.secretCode = some w →
        findEntry (submitComplaintHandler (.ok c) s).2.complaints
            (toString (s.complaints.length + 1)) =
          some { c with id := toString (s.complaints.length + 1) }) ∧
    (registerHandler (.ok demoUser) emptyStore).1.body =
      .userBody { demoUser with id := "1" } ∧
    findEntry store₂.users "c1" =
      some { demoUser with id := "1",
                           complaints := [{ demoComplaint with id := "1" }] } ∧
    findEntry store₂.complaints "1" = some { demoComplaint with id := "1" } ∧
    (viewComplaintHandler (.ok "1") store₂).1 =
      { status := 200, body := .complaintBody { demoComplaint with id := "1" } } := by
  refine ⟨?_, ?_, by decide, by decide, by decide, by decide⟩
  · intro s u h
    simp [registerHandler, h, generateUniqueID]
  · intro s c w h
    simp [submitComplaintHandler, h, generateUniqueID, findEntry_insertEntry]

/-- Witness for C1 at concrete inputs. -/
theorem c1_witness :
    (registerHandler (.ok demoUser) emptyStore).1.body =
      .userBody { demoUser with id := toString (emptyStore.complaints.length + 1),
                                complaints := [] } ∧
    findEntry (submitComplaintHandler (.ok demoComplaint) store₁).2.complaints
        (toString (store₁.complaints.length + 1)) =
      some { demoComplaint with id := toString (store₁.complaints.length + 1) } :=
  ⟨c1_shared_id_counter.1 emptyStore demoUser (by decide),
   c1_shared_id_counter.2.1 store₁ demoComplaint { demoUser with id := "1" }
     (by decide)⟩

/-- C5: registering a secret code that already keys a user fails with status
400 (`"Secret code already in use"`) and leaves the store — in particular the
users table with only the first user's record — unchanged. -/
theorem c5_duplicate_secret_code :
    (∀ (s : Store) (u w : User), findEntry s.users u.secretCode = some w →
        registerHandler (.ok u) s =
          (writeError "Secret code already in use" 400, s)) ∧
    registerHandler
        (.ok { demoUser with name := "Mallory", email := "m@example.com" })
        store₁ =
      (writeError "Secret code already in use" 400, store₁) ∧
    store₁.users = [("c1", { demoUser with id := "1" })] := by
  refine ⟨?_, by decide, by decide⟩
  intro s u w h
  simp [registerHandler, h]

/-- Witness for C5 at concrete inputs. -/
theorem c5_witness :
    registerHandler
        (.ok { demoUser with name := "Mallory", email := "m@example.com" })
        store₁ =
      (writeError "Secret code already in use" 400, store₁) :=
  c5_duplicate_secret_code.1 store₁
    { demoUser with name := "Mallory", email := "m@example.com" }
    { demoUser with id := "1" } (by decide)

/-- C6: submitting a complaint whose secret code matches no registered user
fails with status 404 (`"User not found"`) and returns the store unchanged,
so both the users table and the canonical complaints table are untouched. -/
theorem c6_submit_unknown_user (s : Store) (c : Complaint)
    (h : findEntry s.users c.secretCode = none) :
    submitComplaintHandler (.ok c) s = (writeError "User not found" 404, s) := by
  simp [submitComplaintHandler, h]

/-- Witness for C6 at a concrete input. -/
theorem c6_witness :
    submitComplaintHandler (.ok demoComplaint) emptyStore =
      (writeError "User not found" 404, emptyStore) :=
  c6_submit_unknown_user emptyStore demoComplaint (by decide)

/-- C9: two consecutive registrations with distinct fresh secret codes and no
complaint submission in between are both assigned the same generated ID
`toString (len(complaints) + 1)`, so generated user IDs are not unique. -/
theorem c9_register_ids_collide (s : Store) (u₁ u₂ : User)
    (h₁ : findEntry s.users u₁.secretCode = none)
    (h₂ : findEntry s.users u₂.secretCode = none)
    (hne : u₂.secretCode ≠ u₁.secretCode) :
    ∃ w₁ w₂ : User,
      (registerHandler (.ok u₁) s).1.body = .userBody w₁ ∧
      (registerHandler (.ok u₂) (registerHandler (.ok u₁) s).2).1.body =
        .userBody w₂ ∧
      w₁.id = w₂.id ∧ w₁.id = toString (s.complaints.length + 1) := by
  have h₁' := registerHandler_success s u₁ h₁
  have hfind : findEntry (registerHandler (.ok u₁) s).2.users u₂.secretCode =
      none := by
    rw [h₁']
    simp [findEntry_insertEntry, hne, h₂]
  have hcompl : (registerHandler (.ok u₁) s).2.complaints = s.complaints := by
    rw [h₁']
  refine ⟨{ u₁ with id := generateUniqueID s, complaints := [] },
          { u₂ with id := generateUniqueID s, complaints := [] },
          ?_, ?_, rfl, rfl⟩
  · rw [h₁']
  · rw [registerHandler_success _ u₂ hfind]
    simp [generateUniqueID, hcompl]

/-- Witness for C9 at concrete inputs. -/
theorem c9_witness :
    ∃ w₁ w₂ : User,
      (registerHandler (.ok demoUser) emptyStore).1.body = .userBody w₁ ∧
      (registerHandler (.ok { demoUser with secretCode := "c2" })
          (registerHandler (.ok demoUser) emptyStore).2).1.body =
        .userBody w₂ ∧
      w₁.id = w₂.id ∧ w₁.id = toString (emptyStore.complaints.length + 1) :=
  c9_register_ids_collide emptyStore demoUser { demoUser with secretCode := "c2" }
    (by decide) (by decide) (by decide)

/-- C2: a successful `resolveComplaint` answers 204, leaves the users table —
and with it every snapshot copy embedded in a user's complaint list —
unchanged, and flips `resolved` only on the canonical complaints-table
entry; a subsequent `getAllComplaintsForUser` therefore still returns the
pre-resolution embedded list, while `viewComplaint` shows `resolved = true`. -/
theorem c2_resolve_updates_canonical_only (s : Store) (cid : String)
    (c : Complaint) (hc : findEntry s.complaints cid = some c) :
    (resolveComplaintHandler (.ok cid) (.ok "admin") s).1 =
      { status := 204, body := .empty } ∧
    (resolveComplaintHandler (.ok cid) (.ok "admin") s).2.users = s.users ∧
    findEntry (resolveComplaintHandler (.ok cid) (.ok "admin") s).2.complaints
        cid = some { c with resolved := true } ∧
    (∀ (code : String) (u : User), findEntry s.users code = some u →
        (getAllComplaintsForUserHandler (.ok code)
            (resolveComplaintHandler (.ok cid) (.ok "admin") s).2).1 =
          { status := 200, body := .listBody u.complaints }) ∧
    (∀ w : User, findEntry s.users c.secretCode = some w →
        (viewComplaintHandler (.ok cid)
            (resolveComplaintHandler (.ok cid) (.ok "admin") s).2).1 =
          { status := 200, body := .complaintBody { c with resolved := true } }) := by
  have hres := resolveComplaintHandler_success s cid c hc
  have hcanon : findEntry
      (resolveComplaintHandler (.ok cid) (.ok "admin") s).2.complaints cid =
      some { c with resolved := true } := by
    rw [hres]
    simp [findEntry_insertEntry]
  have husers : (resolveComplaintHandler (.ok cid) (.ok "admin") s).2.users =
      s.users := by
    rw [hres]
  refine ⟨by rw [hres], husers, hcanon, ?_, ?_⟩
  · intro code u hu
    have : findEntry (resolveComplaintHandler (.ok cid) (.ok "admin") s).2.users
        code = some u := by rw [husers]; exact hu
    simp [getAllComplaintsForUserHandler, this]
  · intro w hw
    have hw' : findEntry
        (resolveComplaintHandler (.ok cid) (.ok "admin") s).2.users
        ({ c with resolved := true } : Complaint).secretCode = some w := by
      rw [husers]; exact hw
    simp [viewComplaintHandler, hcanon, hw']

/-- Witness for C2: after resolving complaint `"1"` in the demo store, the
user's list still shows the unresolved snapshot while `viewComplaint` shows
the resolved canonical record. -/
theorem c2_witness :
    (getAllComplaintsForUserHandler (.ok "c1")
        (resolveComplaintHandler (.ok "1") (.ok "admin") store₂).2).1 =
      { status := 200, body := .listBody [{ demoComplaint with id := "1" }] } ∧
    (viewComplaintHandler (.ok "1")
        (resolveComplaintHandler (.ok "1") (.ok "admin") store₂).2).1 =
      { status := 200,
        body := .complaintBody { demoComplaint with id := "1", resolved := true } } := by
  have h := c2_resolve_updates_canonical_only store₂ "1"
    { demoComplaint with id := "1" } (by decide)
  exact ⟨h.2.2.2.1 "c1"
      { demoUser with id := "1", complaints := [{ demoComplaint with id := "1" }] }
      (by decide),
    h.2.2.2.2
      { demoUser with id := "1", complaints := [{ demoComplaint with id := "1" }] }
      (by decide)⟩

/-- C3: `resolveComplaint` on a decoded body carrying `id` and `secretCode`
answers 204 with an empty body when the secret code is `"admin"` and the
complaint exists; a failed decode of either field answers 400 with the decode
message, a non-`"admin"` secret code answers 401 `"Unauthorized"`, and a
missing complaint answers 404 `"Complaint not found"`. -/
theorem c3_resolve_status_cases :
    (∀ (cid code : String) (s : Store), code = "admin" →
        (findEntry s.complaints cid).isSome = true →
        (resolveComplaintHandler (.ok cid) (.ok code) s).1 =
          { status := 204, body := .empty }) ∧
    (∀ (e : String) (b₂ : Except String String) (s : Store),
        (resolveComplaintHandler (.error e) b₂ s).1 =
          { status := 400, body := .errorBody e }) ∧
    (∀ (cid e : String) (s : Store),
        (resolveComplaintHandler (.ok cid) (.error e) s).1 =
          { status := 400, body := .errorBody e }) ∧
    (∀ (cid code : String) (s : Store), code ≠ "admin" →
        (resolveComplaintHandler (.ok cid) (.ok code) s).1 =
          { status := 401, body := .errorBody "Unauthorized" }) ∧
    (∀ (cid : String) (s : Store), findEntry s.complaints cid = none →
        (resolveComplaintHandler (.ok cid) (.ok "admin") s).1 =
          { status := 404, body := .errorBody "Complaint not found" }) := by
  refine ⟨?_, ?_, ?_, ?_, ?_⟩
  · intro cid code s hcode hsome
    subst hcode
    cases hf : findEntry s.complaints cid with
    | none => rw [hf] at hsome; simp at hsome
    | some cd => rw [resolveComplaintHandler_success s cid cd hf]
  · intro e b₂ s
    rfl
  · intro cid e s
    rfl
  · intro cid code s hcode
    simp [resolveComplaintHandler, hcode, writeError]
  · intro cid s hf
    simp [resolveComplaintHandler, hf, writeError]

/-- Witness for C3 at concrete inputs. -/
theorem c3_witness :
    (resolveComplaintHandler (.ok "1") (.ok "admin") store₂).1 =
      { status := 204, body := .empty } ∧
    (resolveComplaintHandler (.ok "1") (.ok "c1") store₂).1 =
      { status := 401, body := .errorBody "Unauthorized" } ∧
    (resolveComplaintHandler (.ok "2") (.ok "admin") store₂).1 =
      { status := 404, body := .errorBody "Complaint not found" } ∧
    (resolveComplaintHandler (.error "EOF") (.ok "admin") store₂).1 =
      { status := 400, body := .errorBody "EOF" } :=
  ⟨c3_resolve_status_cases.1 "1" "admin" store₂ rfl (by decide),
   c3_resolve_status_cases.2.2.2.1 "1" "c1" store₂ (by decide),
   c3_resolve_status_cases.2.2.2.2 "2" store₂ (by decide),
   c3_resolve_status_cases.2.1 "EOF" (.ok "admin") store₂⟩

/-- C4 counterexample: the decoded complaint payload carries the `resolved`
field, and `submitComplaintHandler` stores it as decoded; a payload with
`resolved = true` from a registered user is accepted with 201, and the
subsequent `viewComplaint` on the assigned ID returns `resolved = true`,
not `false`. -/
theorem c4_counterexample :
    (submitComplaintHandler (.ok { demoComplaint with resolved := true })
        store₁).1.status = 201 ∧
    (viewComplaintHandler (.ok "1")
        (submitComplaintHandler (.ok { demoComplaint with resolved := true })
          store₁).2).1 =
      { status := 200,
        body := .complaintBody { demoComplaint with id := "1", resolved := true } } :=
  ⟨by decide, by decide⟩

/-- C4 amended: for every successful complaint submission whose decoded
payload has `resolved = false` (as when the field is absent from the JSON
body), `viewComplaint` on the assigned ID returns the stored record with
`resolved = false`. -/
theorem c4_view_after_submit (s : Store) (c : Complaint) (u : User)
    (hu : findEntry s.users c.secretCode = some u) (hr : c.resolved = false) :
    (viewComplaintHandler (.ok (generateUniqueID s))
        (submitComplaintHandler (.ok c) s).2).1 =
      { status := 200,
        body := .complaintBody { c with id := generateUniqueID s } } ∧
    ({ c with id := generateUniqueID s } : Complaint).resolved = false := by
  have hsub := submitComplaintHandler_success s c u hu
  have hcanon : findEntry (submitComplaintHandler (.ok c) s).2.complaints
      (generateUniqueID s) = some { c with id := generateUniqueID s } := by
    rw [hsub]
    simp [findEntry_insertEntry]
  have huser : findEntry (submitComplaintHandler (.ok c) s).2.users
      ({ c with id := generateUniqueID s } : Complaint).secretCode =
      some ({ u with complaints := u.complaints ++ [{ c with id := generateUniqueID s }] }) := by
    rw [hsub]
    simp [findEntry_insertEntry]
  refine ⟨?_, hr⟩
  simp [viewComplaintHandler, hcanon, huser]

/-- Witness for C4 (amended) at concrete inputs. -/
theorem c4_witness :
    (viewComplaintHandler (.ok (generateUniqueID store₁))
        (submitComplaintHandler (.ok demoComplaint) store₁).2).1 =
      { status := 200,
        body := .complaintBody { demoComplaint with id := generateUniqueID store₁ } } ∧
    ({ demoComplaint with id := generateUniqueID store₁ } : Complaint).resolved = false :=
  c4_view_after_submit store₁ demoComplaint { demoUser with id := "1" }
    (by decide) rfl

/-- C7: in every store reachable from the empty store through the seven
operations, every canonical complaint stores a secret code that keys an
existing user, so the `"User not found"` 404 branch of `viewComplaint` is
never taken. -/
theorem c7_referential_integrity (s : Store) (h : Reachable s) :
    (∀ (id : String) (c : Complaint), findEntry s.complaints id = some c →
        (findEntry s.users c.secretCode).isSome = true) ∧
    ∀ b : Except String String,
      ¬((viewComplaintHandler b s).1.status = 404 ∧
        (viewComplaintHandler b s).1.body = .errorBody "User not found") := by
  refine ⟨reachable_usersOK s h, ?_⟩
  intro b
  cases b with
  | error e =>
      intro hcontra
      have hresp : (viewComplaintHandler (.error e) s).1 = writeError e 400 := rfl
      rw [hresp] at hcontra
      simp [writeError] at hcontra
  | ok id =>
      cases hf : findEntry s.complaints id with
      | none =>
          intro hcontra
          have hresp : (viewComplaintHandler (.ok id) s).1 =
              writeError "Complaint not found" 404 := by
            simp [viewComplaintHandler, hf]
          rw [hresp] at hcontra
          exact absurd hcontra.2 (by decide)
      | some cd =>
          have hus := reachable_usersOK s h id cd hf
          cases hu : findEntry s.users cd.secretCode with
          | none => rw [hu] at hus; simp at hus
          | some w =>
              intro hcontra
              have hresp : (viewComplaintHandler (.ok id) s).1 =
                  { status := 200, body := .complaintBody cd } := by
                simp [viewComplaintHandler, hf, hu]
              rw [hresp] at hcontra
              simp at hcontra

/-- Witness for C7 at a concrete reachable store. -/
theorem c7_witness :
    (findEntry store₂.users
        ({ demoComplaint with id := "1" } : Complaint).secretCode).isSome = true ∧
    ¬((viewComplaintHandler (.ok "1") store₂).1.status = 404 ∧
      (viewComplaintHandler (.ok "1") store₂).1.body = .errorBody "User not found") := by
  have hreach : Reachable store₂ :=
    Reachable.submitComplaint store₁ (.ok demoComplaint)
      (Reachable.register emptyStore (.ok demoUser) Reachable.empty)
  have h := c7_referential_integrity store₂ hreach
  exact ⟨h.1 "1" { demoComplaint with id := "1" } (by decide), h.2 (.ok "1")⟩

/-- C8 counterexample: a non-`"admin"` secret code does make
`getAllComplaintsForAdmin` fail with status 401, but the response carries
the `writeError` body `{"error": "Unauthorized"}`, not an empty body. -/
theorem c8_counterexample :
    (getAllComplaintsForAdminHandler (.ok "c1") store₁).1 =
      { status := 401, body := .errorBody "Unauthorized" } ∧
    (getAllComplaintsForAdminHandler (.ok "c1") store₁).1.body ≠ Body.empty :=
  ⟨by decide, by decide⟩

/-- C8 amended: with secret code `"admin"` the handler returns 200 and the
concatenation of every user's embedded complaint list in map-iteration
order; with any other code it fails with 401 and the error body
`{"error": "Unauthorized"}` (no complaint list), leaving the store
unchanged. -/
theorem c8_admin_list_amended (s : Store) (code : String) :
    (code = "admin" →
        (getAllComplaintsForAdminHandler (.ok code) s).1 =
          { status := 200,
            body := .listBody ((s.users.map fun p => p.2.complaints).flatten) }) ∧
    (code ≠ "admin" →
        getAllComplaintsForAdminHandler (.ok code) s =
          ({ status := 401, body := .errorBody "Unauthorized" }, s)) := by
  constructor
  · intro hcode
    subst hcode
    simp [getAllComplaintsForAdminHandler, foldl_users_flatten]
  · intro hcode
    simp [getAllComplaintsForAdminHandler, hcode, writeError]

/-- Witness for C8 (amended) at concrete inputs. -/
theorem c8_witness :
    (getAllComplaintsForAdminHandler (.ok "admin") store₂).1 =
      { status := 200,
        body := .listBody ((store₂.users.map fun p => p.2.complaints).flatten) } ∧
    getAllComplaintsForAdminHandler (.ok "c9") store₂ =
      ({ status := 401, body := .errorBody "Unauthorized" }, store₂) :=
  ⟨(c8_admin_list_amended store₂ "admin").1 rfl,
   (c8_admin_list_amended store₂ "c9").2 (by decide)⟩

/-- A registration payload whose secret code is the admin token. -/
def adminUser : User :=
  { id := "", secretCode := "admin", name := "Root", email := "root@example.com",
    complaints := [] }

/-- A complaint payload owned by `adminUser`. -/
def adminComplaint : Complaint :=
  { id := "", title := "Loud noise", summary := "Night drilling at the site",
    severity := 2, resolved := false, secretCode := "admin" }

/-- The store after registering `adminUser` into the empty store. -/
def storeA₁ : Store := (registerHandler (.ok adminUser) emptyStore).2

/-- The store after additionally submitting `adminComplaint`. -/
def storeA₂ : Store := (submitComplaintHandler (.ok adminComplaint) storeA₁).2

/-- C10: the admin token is not reserved at registration: when `"admin"` does
not yet key a user, registering a user whose secret code is `"admin"`
succeeds and stores the user, that user can log in with secret code
`"admin"`, and any complaint embedded in that user's list is included in the
`getAllComplaintsForAdmin` output. -/
theorem c10_admin_code_registrable (s : Store) (u : User)
    (hcode : u.secretCode = "admin")
    (hfree : findEntry s.users "admin" = none) :
    (registerHandler (.ok u) s).1.status = 200 ∧
    findEntry (registerHandler (.ok u) s).2.users "admin" =
      some { u with id := generateUniqueID s, complaints := [] } ∧
    (loginHandler (.ok "admin") (registerHandler (.ok u) s).2).1 =
      { status := 200,
        body := .userBody { u with id := generateUniqueID s, complaints := [] } } ∧
    (∀ (t : Store) (w : User) (c : Complaint),
        findEntry t.users "admin" = some w → c ∈ w.complaints →
        ∃ cs, (getAllComplaintsForAdminHandler (.ok "admin") t).1 =
            { status := 200, body := .listBody cs } ∧ c ∈ cs) := by
  have hfree' : findEntry s.users u.secretCode = none := by rw [hcode]; exact hfree
  have hreg := registerHandler_success s u hfree'
  have hafter : findEntry (registerHandler (.ok u) s).2.users "admin" =
      some { u with id := generateUniqueID s, complaints := [] } := by
    rw [hreg]
    simp [findEntry_insertEntry, hcode]
  refine ⟨by rw [hreg], hafter, ?_, ?_⟩
  · simp [loginHandler, hafter]
  · intro t w c hfind hmem
    refine ⟨(t.users.map fun p => p.2.complaints).flatten, ?_, ?_⟩
    · simp [getAllComplaintsForAdminHandler, foldl_users_flatten]
    · have hp : ("admin", w) ∈ t.users := mem_of_findEntry t.users "admin" w hfind
      exact List.mem_flatten.mpr
        ⟨w.complaints, List.mem_map.mpr ⟨("admin", w), hp, rfl⟩, hmem⟩

/-- Witness for C10 at concrete inputs. -/
theorem c10_witness :
    (registerHandler (.ok adminUser) emptyStore).1.status = 200 ∧
    (loginHandler (.ok "admin") storeA₁).1 =
      { status := 200, body := .userBody { adminUser with id := "1" } } ∧
    ∃ cs, (getAllComplaintsForAdminHandler (.ok "admin") storeA₂).1 =
        { status := 200, body := .listBody cs } ∧
      ({ adminComplaint with id := "1" } : Complaint) ∈ cs := by
  have h := c10_admin_code_registrable emptyStore adminUser rfl (by decide)
  refine ⟨h.1, h.2.2.1, ?_⟩
  exact h.2.2.2 storeA₂
    { adminUser with id := "1", complaints := [{ adminComplaint with id := "1" }] }
    { adminComplaint with id := "1" } (by decide) (by decide)

end ComplaintService
